import Mathlib

/-!
Verification of the repository-manager helper scripts.

This file gives a shallow embedding of the three Python scripts of the
repository — `manage_worktree.py`, `spawn_subagent.py` and
`write_artifact.py` — and proves the testable properties stated for them.

Modelling conventions:
- a Python string is a `List Char`;
- an absolute filesystem path is its list of components (`pathlib.Path.parts`
  without the root anchor);
- filesystem probes (`.exists()`, `git check-ignore`) and the success of each
  external command are inputs (oracles) to the embedded functions;
- raising an exception, exiting, printing and running commands are made
  observable through explicit result values and event traces.
-/

/-- Characters of a Python string. -/
abbrev PyStr := List Char

/-- Components of an absolute filesystem path. -/
abbrev FsPath := List PyStr

namespace ManageWorktree

/-- Python `s.replace(a, b)` for a one-character pattern `a` replaces each
occurrence of that character, i.e. maps the characters one by one. -/
def replaceChar (a b : Char) : PyStr → PyStr
  | [] => []
  | c :: rest => (if c = a then b else c) :: replaceChar a b rest

/-- Function `sanitize_branch_name` (manage_worktree.py lines 185-188):
`branch_name.replace("/", "-").replace("\\", "-")`. -/
def sanitize_branch_name (branch_name : PyStr) : PyStr :=
  replaceChar '\\' '-' (replaceChar '/' '-' branch_name)

/-- Python `Path.name`: the last component (empty for the filesystem root). -/
def nameOf (p : FsPath) : PyStr := p.getLast?.getD []

/-- Python `Path.parent`: the path without its last component. -/
def parentOf (p : FsPath) : FsPath := p.dropLast

/-- Function `is_worktree_container` (manage_worktree.py lines 58-68).
The regular expression search `re.search(r'(-[Ww]orktrees|Worktrees)$', name)`
succeeds exactly when the name ends with `-worktrees` or `-Worktrees`
(the `-[Ww]orktrees` alternative) or with `Worktrees` (the second
alternative). -/
def is_worktree_container (parent_path : FsPath) : Bool :=
  let n := nameOf parent_path
  decide ("-worktrees".toList <:+ n) || decide ("-Worktrees".toList <:+ n) ||
    decide ("Worktrees".toList <:+ n)

/-- The two directory-existence probes made by `detect_worktree_pattern`
(manage_worktree.py lines 88-91): `(root / ".worktrees").exists()` and
`(root / "worktrees").exists()`. -/
structure NestedDirs where
  dotWorktrees : Bool
  worktreesDir : Bool
deriving DecidableEq

/-- The pair `(pattern_type, base)` returned by `detect_worktree_pattern`:
for the sibling pattern the base is the parent path, for the nested pattern
it is a directory name. -/
inductive DetectResult where
  | sibling (base : FsPath)
  | nested (dirName : PyStr)
deriving DecidableEq

/-- Function `detect_worktree_pattern` (manage_worktree.py lines 71-94). -/
def detect_worktree_pattern (root : FsPath) (dirs : NestedDirs) : DetectResult :=
  if is_worktree_container (parentOf root) then .sibling (parentOf root)
  else if dirs.dotWorktrees then .nested (".worktrees".toList)
  else if dirs.worktreesDir then .nested ("worktrees".toList)
  else .nested (".worktrees".toList)

/-- The classifier exactly as the specification words it (spec §4.1, claim C1):
sibling when the parent name matches the suffix `-worktrees`, `-Worktrees`, or
`Worktrees` with no preceding dash; otherwise nested with `.worktrees` when
that directory exists, else `worktrees` when that one exists, else the default
`.worktrees`, in that strict priority order. -/
def classifierSpec (root : FsPath) (dirs : NestedDirs) : DetectResult :=
  let n := nameOf (parentOf root)
  if ("-worktrees".toList <:+ n) ∨ ("-Worktrees".toList <:+ n) ∨
      (("Worktrees".toList <:+ n) ∧ ¬ ("-Worktrees".toList <:+ n)) then
    .sibling (parentOf root)
  else if dirs.dotWorktrees then .nested (".worktrees".toList)
  else if dirs.worktreesDir then .nested ("worktrees".toList)
  else .nested (".worktrees".toList)

/-- Observable actions of `create_worktree` and its helpers, in program
order: the append to `.gitignore`, the git commands run, and the diagnostic
prints that the claims mention. `cmdErrorLog` is the "Error running command"
report printed by `run_command` whenever a command fails
(manage_worktree.py lines 32-39). -/
inductive Ev where
  | appendIgnore (pat : PyStr)
  | gitAddCmd
  | gitCommitCmd
  | warnCommitFailed
  | worktreeAddCmd (target : FsPath) (branch : PyStr)
  | cmdErrorLog
  | hintWorktreeAdd
  | verifyFailedMsg
  | verifyPassedMsg
deriving DecidableEq

/-- Function `ensure_gitignore` (manage_worktree.py lines 97-121). The state
of the `.gitignore` file is `Option PyStr` (`none` when the file is absent).
If the entry `directory ++ "/"` already occurs in the existing content the
function returns at once; otherwise it appends `"\n# Git worktrees\n"`, the
entry and a newline, then tries `git add` and `git commit`; a failure of
either is caught and reported as a warning. Returns the new file content and
the events performed. -/
def ensure_gitignore (directory : PyStr) (gitignore : Option PyStr)
    (gitAddOk gitCommitOk : Bool) : Option PyStr × List Ev :=
  let pat := directory ++ ['/']
  let commitEvs : List Ev :=
    if gitAddOk then
      if gitCommitOk then [.gitAddCmd, .gitCommitCmd]
      else [.gitAddCmd, .gitCommitCmd, .cmdErrorLog, .warnCommitFailed]
    else [.gitAddCmd, .cmdErrorLog, .warnCommitFailed]
  match gitignore with
  | some content =>
    if pat <:+: content ∨ ('\n' :: pat) <:+: content then (some content, [])
    else (some (content ++ "\n# Git worktrees\n".toList ++ pat ++ ['\n']),
      .appendIgnore pat :: commitEvs)
  | none =>
    (some ([] ++ "\n# Git worktrees\n".toList ++ pat ++ ['\n']),
      .appendIgnore pat :: commitEvs)

/-- The marker files probed in the new worktree by `setup_project` and
`verify_baseline` (manage_worktree.py lines 124-182). -/
structure Markers where
  packageJson : Bool
  cargoToml : Bool
  requirementsTxt : Bool
  pyprojectToml : Bool
  goMod : Bool
  pytestIni : Bool
  testsDir : Bool
deriving DecidableEq

/-- Availability of the optional package managers checked with
`shutil.which` (manage_worktree.py lines 142-149). -/
structure Tools where
  poetry : Bool
  uv : Bool
deriving DecidableEq

/-- Success of each external command that `create_worktree` may run. -/
structure Cmds where
  gitAddOk : Bool
  gitCommitOk : Bool
  worktreeAddOk : Bool
  npmOk : Bool
  cargoOk : Bool
  pipOk : Bool
  poetryOk : Bool
  uvOk : Bool
  goOk : Bool
  verifyOk : Bool
deriving DecidableEq

/-- Function `setup_project` (manage_worktree.py lines 124-153): runs one
installer per marker found, in source order. Every installer is run through
`run_command` with `check=True` and no surrounding `try`, so the first
failing command raises `subprocess.CalledProcessError` out of the function.
Returns `true` when the function completes, `false` when it raises. -/
def setup_project (m : Markers) (t : Tools) (c : Cmds) : Bool :=
  if m.packageJson && !c.npmOk then false
  else if m.cargoToml && !c.cargoOk then false
  else if m.requirementsTxt && !c.pipOk then false
  else if m.pyprojectToml && t.poetry && !c.poetryOk then false
  else if m.pyprojectToml && !t.poetry && t.uv && !c.uvOk then false
  else if m.goMod && !c.goOk then false
  else true

/-- Function `verify_baseline` (manage_worktree.py lines 156-182): picks at
most one test command in fixed priority order, runs it inside a `try`, and
returns its verdict; `none` when no test runner is detected (the function
then reports a skip and returns `True`). -/
def verify_baseline (m : Markers) (c : Cmds) : Option Bool :=
  if m.packageJson then some c.verifyOk
  else if m.cargoToml then some c.verifyOk
  else if m.pytestIni || m.testsDir then some c.verifyOk
  else if m.goMod then some c.verifyOk
  else none

/-- How one invocation of `create_worktree` ends: normal return, `sys.exit`
with a status, or a Python exception that nothing in the script catches
(which terminates the interpreter with a traceback and a non-zero status). -/
inductive Outcome where
  | ok
  | exitCode (code : ℕ)
  | uncaughtError
deriving DecidableEq

/-- The inputs of one `create_worktree` invocation: repository root, branch,
the optional `--location` override, the filesystem probes, the current
`.gitignore`, the `git check-ignore` oracle and the two skip flags. -/
structure CreateEnv where
  root : FsPath
  branch : PyStr
  location : Option PyStr
  dirs : NestedDirs
  gitignore : Option PyStr
  checkIgnore : PyStr → Bool
  skipSetup : Bool
  skipVerify : Bool

/-- What one `create_worktree` invocation produced: the resolved target path,
the final `.gitignore` content, the event trace and the process outcome. -/
structure CreateResult where
  target : FsPath
  gitignore : Option PyStr
  trace : List Ev
  outcome : Outcome

/-- The path-resolution half of `create_worktree` (manage_worktree.py lines
193-218): the resolved target path, the `.gitignore` content after the
optional `ensure_gitignore` run, and the events of that phase. With an
explicit location the target is `root / location / safe_branch` and no
gitignore handling happens; otherwise the pattern is detected, and for the
nested pattern `ensure_gitignore` runs first when `git check-ignore` does
not already ignore the base directory. -/
def createPhase1 (env : CreateEnv) (c : Cmds) : FsPath × Option PyStr × List Ev :=
  let safe := sanitize_branch_name env.branch
  match env.location with
  | some loc => (env.root ++ [loc, safe], env.gitignore, [])
  | none =>
    match detect_worktree_pattern env.root env.dirs with
    | .sibling base => (base ++ [safe], env.gitignore, [])
    | .nested baseName =>
      if env.checkIgnore baseName then
        (env.root ++ [baseName, safe], env.gitignore, [])
      else
        let eg := ensure_gitignore baseName env.gitignore c.gitAddOk c.gitCommitOk
        (env.root ++ [baseName, safe], eg.1, eg.2)

/-- Function `create_worktree` (manage_worktree.py lines 191-242). After the
path resolution of `createPhase1`, `git worktree add` runs: its failure is
caught and answered with a hint and `sys.exit(1)`. Afterwards
`setup_project` runs unless skipped — a failure inside it propagates uncaught
and terminates the interpreter — and then `verify_baseline` runs unless
skipped, its failure only being printed. -/
def create_worktree (env : CreateEnv) (m : Markers) (t : Tools) (c : Cmds) :
    CreateResult :=
  let p := createPhase1 env c
  let target := p.1
  let g1 := p.2.1
  let evs1 := p.2.2
  if c.worktreeAddOk then
    let evs2 := evs1 ++ [Ev.worktreeAddCmd target env.branch]
    if !env.skipSetup && !(setup_project m t c) then
      { target := target, gitignore := g1, trace := evs2 ++ [Ev.cmdErrorLog],
        outcome := .uncaughtError }
    else
      let verifyEvs : List Ev :=
        if env.skipVerify then []
        else
          match verify_baseline m c with
          | some true => [Ev.verifyPassedMsg]
          | some false => [Ev.cmdErrorLog, Ev.verifyFailedMsg]
          | none => []
      { target := target, gitignore := g1, trace := evs2 ++ verifyEvs,
        outcome := .ok }
  else
    { target := target, gitignore := g1,
      trace := evs1 ++
        [Ev.worktreeAddCmd target env.branch, Ev.cmdErrorLog, Ev.hintWorktreeAdd],
      outcome := .exitCode 1 }

/-- The events that follow the `git worktree add` attempt in the trace of
`create_worktree`, spelled out per case; used to state the component
lemmas. -/
def createTailEvs (env : CreateEnv) (m : Markers) (t : Tools) (c : Cmds) : List Ev :=
  if c.worktreeAddOk then
    if !env.skipSetup && !(setup_project m t c) then [Ev.cmdErrorLog]
    else if env.skipVerify then []
    else
      match verify_baseline m c with
      | some true => [Ev.verifyPassedMsg]
      | some false => [Ev.cmdErrorLog, Ev.verifyFailedMsg]
      | none => []
  else [Ev.cmdErrorLog, Ev.hintWorktreeAdd]

/-- A concrete environment for exercising the default nested `create` flow:
root `/home/proj` whose parent is no worktree container, branch `demo`,
no location override, no existing worktree directories, an empty existing
`.gitignore`, and nothing ignored yet. -/
def envDemo : CreateEnv :=
  { root := ["home".toList, "proj".toList], branch := "demo".toList,
    location := none, dirs := ⟨false, false⟩, gitignore := some [],
    checkIgnore := fun _ => false, skipSetup := true, skipVerify := true }

/-- The same concrete environment with setup and verification enabled. -/
def envDemoFull : CreateEnv :=
  { root := ["home".toList, "proj".toList], branch := "demo".toList,
    location := none, dirs := ⟨false, false⟩, gitignore := some [],
    checkIgnore := fun _ => false, skipSetup := false, skipVerify := false }

/-- Markers of a worktree that contains only `package.json`. -/
def markersNode : Markers := ⟨true, false, false, false, false, false, false⟩

/-- Markers of a worktree with no project files at all. -/
def markersNone : Markers := ⟨false, false, false, false, false, false, false⟩

/-- No optional package managers installed. -/
def toolsNone : Tools := ⟨false, false⟩

/-- Every external command succeeds. -/
def cmdsAllOk : Cmds := ⟨true, true, true, true, true, true, true, true, true, true⟩

/-- Every external command succeeds except `npm install`. -/
def cmdsNpmFails : Cmds := ⟨true, true, true, false, true, true, true, true, true, true⟩

/-- The three subcommands registered on the argument parser
(manage_worktree.py lines 282-294). -/
def knownCommands : List PyStr := ["create".toList, "list".toList, "remove".toList]

/-- How an invocation of `main` can end before dispatching real work. -/
inductive CliOutcome where
  | helpExit1
  | usageError2
  | dispatched (cmd : PyStr)
deriving DecidableEq

/-- Exit status of the non-dispatching outcomes. -/
def CliOutcome.exitStatus : CliOutcome → Option ℕ
  | .helpExit1 => some 1
  | .usageError2 => some 2
  | .dispatched _ => none

/-- Whether the full help text is printed (`parser.print_help()`). -/
def CliOutcome.printsHelp : CliOutcome → Bool
  | .helpExit1 => true
  | _ => false

/-- Function `main` (manage_worktree.py lines 267-306) together with the
CPython `argparse` behaviour it relies on. The subparsers are created with
`add_subparsers(dest="command")` and are therefore optional: an empty argv
parses to `command = None`, so `main` reaches the final `else`, prints the
help text and exits 1. An argv whose first token is not a registered
subcommand makes `argparse` itself abort inside `ArgumentParser.error` with a
usage message on stderr and `SystemExit(2)`, before `main`'s dispatch runs. -/
def main_dispatch (argv : List PyStr) : CliOutcome :=
  match argv with
  | [] => .helpExit1
  | cmd :: _ => if cmd ∈ knownCommands then .dispatched cmd else .usageError2

end ManageWorktree

namespace SpawnSubagent

/-- A Python value stored in the result dictionary of `spawn_subagent`:
a boolean, a string, or a number (`duration_s`). -/
inductive PyVal where
  | b (x : Bool)
  | s (x : PyStr)
  | n (x : ℚ)
deriving DecidableEq

/-- A Python dictionary with string keys, as the ordered association list of
its entries. -/
abbrev Dict := List (String × PyVal)

/-- First candidate path for the skill file (spawn_subagent.py line 91). -/
def candidate0 (repoRoot skill : PyStr) : PyStr :=
  repoRoot ++ "/.agent/skills/superpowers-".toList ++ skill ++ "/SKILL.md".toList

/-- Second candidate path for the skill file (spawn_subagent.py line 92). -/
def candidate1 (repoRoot skill : PyStr) : PyStr :=
  repoRoot ++ "/.agent/skills/".toList ++ skill ++ "/SKILL.md".toList

/-- Third candidate path for the skill file (spawn_subagent.py line 93). -/
def candidate2 (repoRoot skill : PyStr) : PyStr :=
  repoRoot ++ "/skills/".toList ++ skill ++ "/SKILL.md".toList

/-- The text `str([str(c) for c in candidates])`: the Python list repr of the
three candidate paths, each quoted. -/
def candidatesRepr (repoRoot skill : PyStr) : PyStr :=
  "['".toList ++ candidate0 repoRoot skill ++ "', '".toList ++
    candidate1 repoRoot skill ++ "', '".toList ++ candidate2 repoRoot skill ++
    "']".toList

/-- Error text of the unknown-skill failure (spawn_subagent.py line 106). -/
def notFoundMsg (skill repoRoot : PyStr) : PyStr :=
  "Skill '".toList ++
    (skill ++ ("' not found. Checked: ".toList ++ candidatesRepr repoRoot skill))

/-- Error text of the missing-binary failure (spawn_subagent.py line 145). -/
def geminiMissingMsg : PyStr :=
  "Gemini CLI not found. Please run 'npm install -g @google/gemini-cli' and ensure it is in your PATH.".toList

/-- The duration formatted with no decimals. Python formats the float with
round-half-even; the properties proved here depend only on the surrounding
message text, not on the digits. -/
def fmtSeconds (d : ℚ) : PyStr := (toString (round d)).toList

/-- Error text of the timeout failure (spawn_subagent.py line 213). -/
def timeoutMsg (d : ℚ) : PyStr :=
  "Subagent timed out after ".toList ++ (fmtSeconds d ++ ['s'])

/-- Error text of the generic-exception failure (spawn_subagent.py line 223),
where the argument is the exception's text. -/
def exceptionMsg (e : PyStr) : PyStr :=
  "Subagent execution failed: ".toList ++ e

/-- The log file path (spawn_subagent.py lines 84-86). -/
def logFilePath (repoRoot skill timestamp subagentId : PyStr) : PyStr :=
  repoRoot ++ "/artifacts/superpowers/subagents/".toList ++ skill ++ ['-'] ++
    timestamp ++ ['-'] ++ subagentId ++ ".log".toList

/-- The literal delimiter `---SUBAGENT-RESULT-START---`. -/
def startMarker : PyStr := "---SUBAGENT-RESULT-START---".toList

/-- The literal delimiter `---SUBAGENT-RESULT-END---`. -/
def endMarker : PyStr := "---SUBAGENT-RESULT-END---".toList

/-- The remainder of `s` after the first occurrence of `sep`; `none` when
`sep` does not occur, matching Python's `sep in s` test followed by
`s.split(sep, 1)[1]`. -/
def afterFirst (sep : PyStr) : PyStr → Option PyStr
  | [] => if sep = [] then some [] else none
  | c :: rest =>
    if sep <+: (c :: rest) then some ((c :: rest).drop sep.length)
    else afterFirst sep rest

/-- Python `s.split(sep, 1)[0]`: the part of `s` before the first occurrence
of `sep` (all of `s` when `sep` does not occur). -/
def beforeFirst (sep : PyStr) : PyStr → PyStr
  | [] => []
  | c :: rest => if sep <+: (c :: rest) then [] else c :: beforeFirst sep rest

/-- Python whitespace stripped by `str.strip()`. -/
def isPySpace (c : Char) : Bool :=
  c = ' ' || c = '\t' || c = '\n' || c = '\r' || c = '\x0b' || c = '\x0c'

/-- Python `str.strip()`. -/
def pyStrip (s : PyStr) : PyStr :=
  ((s.dropWhile isPySpace).reverse.dropWhile isPySpace).reverse

/-- Lines 191-197 of spawn_subagent.py: when the start marker occurs in the
stdout, keep the part between the markers, stripped; otherwise keep the whole
stdout. -/
def extract_output (stdout : PyStr) : PyStr :=
  match afterFirst startMarker stdout with
  | none => stdout
  | some restPart => pyStrip (beforeFirst endMarker restPart)

/-- Outcome of the `try` block around `subprocess.run`
(spawn_subagent.py lines 159-227): normal completion with a return code,
`subprocess.TimeoutExpired`, or any other exception — the last possibly
raised before the process was started (for example while opening the log
file). -/
inductive ProcResult where
  | completed (returncode : ℤ) (stdout stderr : PyStr) (elapsed : ℚ)
  | timedOut (elapsed : ℚ)
  | raised (msg : PyStr) (elapsed : ℚ) (startedProcess : Bool)
deriving DecidableEq

/-- The environment of one `spawn_subagent` call: the generated id and
timestamp, the candidate-file probes, the text loaded from the first existing
candidate (empty when unreadable, mirroring `load_skill_instructions`), the
result of `find_gemini_executable`, the yolo flag and the process outcome. -/
structure SpawnWorld where
  repoRoot : PyStr
  timestamp : PyStr
  subagentId : PyStr
  cand0Exists : Bool
  cand1Exists : Bool
  cand2Exists : Bool
  readResult : PyStr
  geminiExe : Option PyStr
  yolo : Bool
  proc : ProcResult
deriving DecidableEq

/-- The one `subprocess.run` invocation: its argument vector and the fixed
`timeout=600` passed to it (spawn_subagent.py lines 152-180). -/
structure RunCall where
  cmd : List PyStr
  timeoutS : ℕ
deriving DecidableEq

/-- What `spawn_subagent` produced: the returned dictionary and the
`subprocess.run` call if one was made. -/
structure SpawnOut where
  result : Dict
  runCall : Option RunCall
deriving DecidableEq

/-- Function `spawn_subagent` (spawn_subagent.py lines 59-227). The skill
instructions are the text of the first existing candidate file, and the
falsiness test `if not skill_instructions` makes both "no candidate exists"
and "the file read empty" take the not-found return. Every branch returns a
dictionary with the same six keys. -/
def spawn_subagent (skill task : PyStr) (w : SpawnWorld) : SpawnOut :=
  let lf := logFilePath w.repoRoot skill w.timestamp w.subagentId
  let skillInstructions : PyStr :=
    if w.cand0Exists || w.cand1Exists || w.cand2Exists then w.readResult else []
  if skillInstructions = [] then
    { result := [("success", .b false), ("output", .s []),
        ("error", .s (notFoundMsg skill w.repoRoot)), ("log_file", .s lf),
        ("duration_s", .n 0), ("subagent_id", .s w.subagentId)],
      runCall := none }
  else
    match w.geminiExe with
    | none =>
      { result := [("success", .b false), ("output", .s []),
          ("error", .s geminiMissingMsg), ("log_file", .s lf),
          ("duration_s", .n 0), ("subagent_id", .s w.subagentId)],
        runCall := none }
    | some exe =>
      let call : RunCall :=
        { cmd := exe :: (if w.yolo then ["--yolo".toList] else []),
          timeoutS := 600 }
      match w.proc with
      | .completed rc stdout stderr d =>
        { result := [("success", .b (decide (rc = 0))),
            ("output", .s (extract_output stdout)),
            ("error", .s (if rc ≠ 0 then stderr else [])), ("log_file", .s lf),
            ("duration_s", .n d), ("subagent_id", .s w.subagentId)],
          runCall := some call }
      | .timedOut d =>
        { result := [("success", .b false), ("output", .s []),
            ("error", .s (timeoutMsg d)), ("log_file", .s lf),
            ("duration_s", .n d), ("subagent_id", .s w.subagentId)],
          runCall := some call }
      | .raised msg d startedProcess =>
        { result := [("success", .b false), ("output", .s []),
            ("error", .s (exceptionMsg msg)), ("log_file", .s lf),
            ("duration_s", .n d), ("subagent_id", .s w.subagentId)],
          runCall := if startedProcess then some call else none }

/-- The keys of a dictionary, in order. -/
def dictKeys (d : Dict) : List String := d.map Prod.fst

/-- The six keys every `spawn_subagent` return dictionary carries. -/
def spawnKeys : List String :=
  ["success", "output", "error", "log_file", "duration_s", "subagent_id"]

/-- A concrete world in which no skill-file candidate exists. -/
def worldNoSkill : SpawnWorld :=
  { repoRoot := "/repo".toList, timestamp := "20260101-120000".toList,
    subagentId := "abcd1234".toList, cand0Exists := false, cand1Exists := false,
    cand2Exists := false, readResult := [], geminiExe := none, yolo := true,
    proc := .completed 0 [] [] 0 }

/-- A concrete world in which the first candidate exists, the binary is
found, and the external process times out after five seconds. -/
def worldTimeout : SpawnWorld :=
  { repoRoot := "/repo".toList, timestamp := "20260101-120000".toList,
    subagentId := "abcd1234".toList, cand0Exists := true, cand1Exists := false,
    cand2Exists := false, readResult := "Use TDD.".toList,
    geminiExe := some "/usr/bin/gemini".toList, yolo := true,
    proc := .timedOut 5 }

/-- A concrete world in which the external process runs and exits 0. -/
def worldSuccess : SpawnWorld :=
  { repoRoot := "/repo".toList, timestamp := "20260101-120000".toList,
    subagentId := "abcd1234".toList, cand0Exists := true, cand1Exists := false,
    cand2Exists := false, readResult := "Use TDD.".toList,
    geminiExe := some "/usr/bin/gemini".toList, yolo := true,
    proc := .completed 0 "done".toList [] 2 }

end SpawnSubagent

namespace WriteArtifact

/-- Python `[start, *start.parents]`: the path and its ancestors, nearest
first, ending at the filesystem root. -/
def ancestorChain (start : FsPath) : List FsPath :=
  (List.range (start.length + 1)).map (fun k => start.take (start.length - k))

/-- Function `find_repo_root` (write_artifact.py lines 7-11) over an oracle
`hasMarker p` deciding `(p / ".agent").exists() or (p / ".git").exists()`:
the first of `[start, *start.parents]` carrying a marker, else `start`. -/
def find_repo_root (start : FsPath) (hasMarker : FsPath → Bool) : FsPath :=
  match (ancestorChain start).find? hasMarker with
  | some p => p
  | none => start

/-- The `--path` argument as `pathlib` parses it: an anchor flag and the
component list, which may contain `..` and `.` entries. -/
structure ArgPath where
  absolute : Bool
  parts : List PyStr
deriving DecidableEq

/-- Python `Path.resolve()` on an absolute path, ignoring symlinks: fold the
components, popping one level on `..` (staying at the root when already
there) and dropping `.`. -/
def resolveComps (acc : FsPath) : List PyStr → FsPath
  | [] => acc
  | comp :: rest =>
    if comp = "..".toList then resolveComps acc.dropLast rest
    else if comp = ".".toList then resolveComps acc rest
    else resolveComps (acc ++ [comp]) rest

/-- Line 19 of write_artifact.py, `(repo_root / args.path).resolve()`:
`pathlib` discards the left operand entirely when the right operand is
absolute, and the joined path is resolved with no validation that the result
stays under the repository root. -/
def write_artifact_out (start : FsPath) (hasMarker : FsPath → Bool)
    (arg : ArgPath) : FsPath :=
  let repoRoot := find_repo_root start hasMarker
  resolveComps [] ((if arg.absolute then [] else repoRoot) ++ arg.parts)

/-- A concrete repository root `/home/user/repo`. -/
def sampleRoot : FsPath := ["home".toList, "user".toList, "repo".toList]

/-- A concrete marker oracle: exactly `/home/user/repo` contains `.agent`
or `.git`. -/
def sampleMarker : FsPath → Bool := fun p => decide (p = sampleRoot)

/-- The concrete argument `--path ../evil`. -/
def dotdotArg : ArgPath := { absolute := false, parts := ["..".toList, "evil".toList] }

end WriteArtifact

namespace ManageWorktree

theorem replaceChar_eq_of_not_mem {a : Char} (b : Char) {s : PyStr} (h : a ∉ s) :
    replaceChar a b s = s := by
  induction s with
  | nil => rfl
  | cons c rest ih =>
    simp only [List.mem_cons, not_or] at h
    have hca : c ≠ a := fun hc => h.1 hc.symm
    simp only [replaceChar, ih h.2, if_neg hca]

theorem mem_replaceChar {a b x : Char} {s : PyStr} (h : x ∈ replaceChar a b s) :
    x = b ∨ (x ∈ s ∧ x ≠ a) := by
  induction s with
  | nil => simp [replaceChar] at h
  | cons c rest ih =>
    simp only [replaceChar, List.mem_cons] at h
    rcases h with h | h
    · by_cases hc : c = a
      · simp only [hc, if_pos rfl] at h
        exact Or.inl h
      · simp only [if_neg hc] at h
        subst h
        exact Or.inr ⟨List.mem_cons_self x rest, hc⟩
    · rcases ih h with h' | h'
      · exact Or.inl h'
      · exact Or.inr ⟨List.mem_cons_of_mem c h'.1, h'.2⟩

theorem slash_not_mem_sanitize (s : PyStr) : '/' ∉ sanitize_branch_name s := by
  intro h
  rcases mem_replaceChar h with h' | h'
  · exact absurd h' (by decide)
  · rcases mem_replaceChar h'.1 with h'' | h''
    · exact absurd h'' (by decide)
    · exact h''.2 rfl

theorem backslash_not_mem_sanitize (s : PyStr) : '\\' ∉ sanitize_branch_name s := by
  intro h
  rcases mem_replaceChar h with h' | h'
  · exact absurd h' (by decide)
  · exact h'.2 rfl

theorem sanitize_eq_of_no_sep {s : PyStr} (h1 : '/' ∉ s) (h2 : '\\' ∉ s) :
    sanitize_branch_name s = s := by
  unfold sanitize_branch_name
  rw [replaceChar_eq_of_not_mem '-' h1, replaceChar_eq_of_not_mem '-' h2]

/-- C6: branch-name sanitization is a total function (it is defined by
structural recursion on every string), it is idempotent, it maps
`feature/auth/v2` to `feature-auth-v2` and `feature\auth` to `feature-auth`,
and it leaves any name without path separators unchanged. -/
theorem sanitize_branch_name_props :
    (∀ s, sanitize_branch_name (sanitize_branch_name s) = sanitize_branch_name s) ∧
    sanitize_branch_name ("feature/auth/v2".toList) = "feature-auth-v2".toList ∧
    sanitize_branch_name ("feature\\auth".toList) = "feature-auth".toList ∧
    (∀ s, '/' ∉ s → '\\' ∉ s → sanitize_branch_name s = s) := by
  refine ⟨fun s => ?_, by decide, by decide, fun s h1 h2 => sanitize_eq_of_no_sep h1 h2⟩
  exact sanitize_eq_of_no_sep (slash_not_mem_sanitize s) (backslash_not_mem_sanitize s)

/-- Witness for C6: the hypothesis-bearing part applied to the concrete
separator-free name `plain`. -/
theorem sanitize_branch_name_props_witness :
    sanitize_branch_name ("plain".toList) = "plain".toList :=
  sanitize_branch_name_props.2.2.2 ("plain".toList) (by decide) (by decide)

/-- C1: for every repository root and filesystem state,
`detect_worktree_pattern` coincides with the classifier exactly as the
specification describes it: sibling with the parent directory as base when
the parent name ends in `-worktrees`, `-Worktrees`, or `Worktrees` without a
preceding dash, otherwise nested `.worktrees` when that directory exists,
else nested `worktrees` when that one exists, else the default nested
`.worktrees`, in that strict priority order. -/
theorem detect_worktree_pattern_spec (root : FsPath) (dirs : NestedDirs) :
    detect_worktree_pattern root dirs = classifierSpec root dirs := by
  unfold detect_worktree_pattern classifierSpec is_worktree_container
  simp only [Bool.or_eq_true, decide_eq_true_eq]
  refine if_congr ?_ rfl rfl
  constructor
  · rintro ((h | h) | h)
    · exact Or.inl h
    · exact Or.inr (Or.inl h)
    · by_cases h2 : "-Worktrees".toList <:+ nameOf (parentOf root)
      · exact Or.inr (Or.inl h2)
      · exact Or.inr (Or.inr ⟨h, h2⟩)
  · rintro (h | h | ⟨h, -⟩)
    · exact Or.inl (Or.inl h)
    · exact Or.inl (Or.inr h)
    · exact Or.inr h

/-- C7: `ensure_gitignore` leaves an ignore file that already contains the
entry `directory ++ "/"` untouched (and runs no command), and its effect on
the file content is idempotent: a second application to the file it produced
changes nothing. -/
theorem ensure_gitignore_props (directory : PyStr) :
    (∀ content gA gC, (directory ++ ['/']) <:+: content →
      ensure_gitignore directory (some content) gA gC = (some content, [])) ∧
    (∀ g gA gC gA' gC',
      (ensure_gitignore directory
          ((ensure_gitignore directory g gA gC).1) gA' gC').1 =
        (ensure_gitignore directory g gA gC).1) := by
  have happ : ∀ (content : PyStr) (gA' gC' : Bool),
      (ensure_gitignore directory
          (some (content ++ "\n# Git worktrees\n".toList ++ (directory ++ ['/']) ++ ['\n']))
          gA' gC').1 =
        some (content ++ "\n# Git worktrees\n".toList ++ (directory ++ ['/']) ++ ['\n']) := by
    intro content gA' gC'
    have hP : (directory ++ ['/']) <:+:
        content ++ "\n# Git worktrees\n".toList ++ (directory ++ ['/']) ++ ['\n'] ∨
        ('\n' :: (directory ++ ['/'])) <:+:
        content ++ "\n# Git worktrees\n".toList ++ (directory ++ ['/']) ++ ['\n'] :=
      Or.inl (List.infix_append (content ++ "\n# Git worktrees\n".toList)
        (directory ++ ['/']) ['\n'])
    unfold ensure_gitignore
    dsimp only
    rw [if_pos hP]
  constructor
  · intro content gA gC h
    unfold ensure_gitignore
    dsimp only
    rw [if_pos (Or.inl h)]
  · intro g gA gC gA' gC'
    match g with
    | none =>
      have h1 : (ensure_gitignore directory none gA gC).1 =
          some ([] ++ "\n# Git worktrees\n".toList ++ (directory ++ ['/']) ++ ['\n']) := rfl
      rw [h1]
      exact happ [] gA' gC'
    | some content =>
      by_cases h : (directory ++ ['/']) <:+: content ∨
          ('\n' :: (directory ++ ['/'])) <:+: content
      · have h1 : (ensure_gitignore directory (some content) gA gC).1 = some content := by
          unfold ensure_gitignore
          dsimp only
          rw [if_pos h]
        rw [h1]
        unfold ensure_gitignore
        dsimp only
        rw [if_pos h]
      · have h1 : (ensure_gitignore directory (some content) gA gC).1 =
            some (content ++ "\n# Git worktrees\n".toList ++ (directory ++ ['/']) ++ ['\n']) := by
          unfold ensure_gitignore
          dsimp only
          rw [if_neg h]
        rw [h1]
        exact happ content gA' gC'

/-- Witness for C7: the already-present case at a concrete ignore file, and
idempotence starting from a concrete empty ignore file. -/
theorem ensure_gitignore_props_witness :
    ensure_gitignore (".worktrees".toList) (some (".worktrees/\n".toList)) true true =
      (some (".worktrees/\n".toList), []) ∧
    (ensure_gitignore (".worktrees".toList)
        ((ensure_gitignore (".worktrees".toList) (some []) true true).1) true true).1 =
      (ensure_gitignore (".worktrees".toList) (some []) true true).1 :=
  ⟨(ensure_gitignore_props (".worktrees".toList)).1 _ true true (by decide),
    (ensure_gitignore_props (".worktrees".toList)).2 (some []) true true true true⟩

end ManageWorktree

namespace ManageWorktree

theorem create_worktree_target (env : CreateEnv) (m : Markers) (t : Tools) (c : Cmds) :
    (create_worktree env m t c).target = (createPhase1 env c).1 := by
  unfold create_worktree
  by_cases hw : c.worktreeAddOk = true
  · by_cases hs : (!env.skipSetup && !(setup_project m t c)) = true <;> simp [hw, hs]
  · simp [hw]

theorem create_worktree_gitignore (env : CreateEnv) (m : Markers) (t : Tools) (c : Cmds) :
    (create_worktree env m t c).gitignore = (createPhase1 env c).2.1 := by
  unfold create_worktree
  by_cases hw : c.worktreeAddOk = true
  · by_cases hs : (!env.skipSetup && !(setup_project m t c)) = true <;> simp [hw, hs]
  · simp [hw]

theorem create_worktree_outcome (env : CreateEnv) (m : Markers) (t : Tools) (c : Cmds) :
    (create_worktree env m t c).outcome =
      if c.worktreeAddOk then
        if !env.skipSetup && !(setup_project m t c) then Outcome.uncaughtError
        else Outcome.ok
      else Outcome.exitCode 1 := by
  unfold create_worktree
  by_cases hw : c.worktreeAddOk = true
  · by_cases hs : (!env.skipSetup && !(setup_project m t c)) = true <;> simp [hw, hs]
  · simp [hw]

theorem create_worktree_trace (env : CreateEnv) (m : Markers) (t : Tools) (c : Cmds) :
    (create_worktree env m t c).trace =
      (createPhase1 env c).2.2 ++
        Ev.worktreeAddCmd (createPhase1 env c).1 env.branch ::
          createTailEvs env m t c := by
  unfold create_worktree createTailEvs
  by_cases hw : c.worktreeAddOk = true
  · by_cases hs : (!env.skipSetup && !(setup_project m t c)) = true
    · simp [hw, hs]
    · by_cases hv : env.skipVerify = true
      · simp [hw, hs, hv]
      · rcases hb : verify_baseline m c with _ | b
        · simp [hw, hs, hv, hb]
        · cases b <;> simp [hw, hs, hv, hb]
  · simp [hw]

theorem createPhase1_nested (env : CreateEnv) (c : Cmds) (bn : PyStr)
    (hloc : env.location = none)
    (hdet : detect_worktree_pattern env.root env.dirs = .nested bn)
    (hign : env.checkIgnore bn = false) :
    createPhase1 env c =
      (env.root ++ [bn, sanitize_branch_name env.branch],
        (ensure_gitignore bn env.gitignore c.gitAddOk c.gitCommitOk).1,
        (ensure_gitignore bn env.gitignore c.gitAddOk c.gitCommitOk).2) := by
  unfold createPhase1
  rw [hloc]
  dsimp only
  rw [hdet]
  dsimp only
  rw [hign]
  simp

end ManageWorktree

namespace ManageWorktree

/-- C2: creating a worktree for branch `demo` when the root has no
`.worktrees` or `worktrees` subdirectory, the parent is no worktree
container, no location override is given, and `.worktrees` is not yet
ignored (neither known to `git check-ignore` nor present as an entry of the
existing ignore file) resolves the target to `root/.worktrees/demo`, appends
the `.worktrees/` entry to the ignore file, and does so before the
`git worktree add` command is issued. -/
theorem create_worktree_demo_nested (env : CreateEnv) (m : Markers) (t : Tools)
    (c : Cmds) (content : PyStr)
    (hloc : env.location = none)
    (hdot : env.dirs.dotWorktrees = false)
    (hwt : env.dirs.worktreesDir = false)
    (hpar : is_worktree_container (parentOf env.root) = false)
    (hbr : env.branch = "demo".toList)
    (hign : env.checkIgnore (".worktrees".toList) = false)
    (hgi : env.gitignore = some content)
    (hpat : ¬ ((".worktrees".toList ++ ['/']) <:+: content)) :
    (create_worktree env m t c).target =
      env.root ++ [".worktrees".toList, "demo".toList] ∧
    (create_worktree env m t c).gitignore =
      some (content ++ "\n# Git worktrees\n".toList ++
        (".worktrees".toList ++ ['/']) ++ ['\n']) ∧
    ∃ l₁ l₂, (create_worktree env m t c).trace =
        l₁ ++ Ev.worktreeAddCmd
          (env.root ++ [".worktrees".toList, "demo".toList]) env.branch :: l₂ ∧
      Ev.appendIgnore (".worktrees".toList ++ ['/']) ∈ l₁ := by
  have hdet : detect_worktree_pattern env.root env.dirs = .nested (".worktrees".toList) := by
    unfold detect_worktree_pattern
    rw [hpar, hdot, hwt]
    simp
  have hsan : sanitize_branch_name env.branch = "demo".toList := by
    rw [hbr]
    decide
  have hP1 := createPhase1_nested env c (".worktrees".toList) hloc hdet hign
  have hnd : ¬ (((".worktrees".toList ++ ['/']) <:+: content) ∨
      (('\n' :: (".worktrees".toList ++ ['/'])) <:+: content)) := by
    rintro (h | h)
    · exact hpat h
    · exact hpat ((List.suffix_cons '\n' (".worktrees".toList ++ ['/'])).isInfix.trans h)
  have hE1 : (ensure_gitignore (".worktrees".toList) env.gitignore
      c.gitAddOk c.gitCommitOk).1 =
      some (content ++ "\n# Git worktrees\n".toList ++
        (".worktrees".toList ++ ['/']) ++ ['\n']) := by
    rw [hgi]
    unfold ensure_gitignore
    dsimp only
    rw [if_neg hnd]
  have hE2 : ∃ evs, (ensure_gitignore (".worktrees".toList) env.gitignore
      c.gitAddOk c.gitCommitOk).2 =
      Ev.appendIgnore (".worktrees".toList ++ ['/']) :: evs := by
    rw [hgi]
    unfold ensure_gitignore
    dsimp only
    rw [if_neg hnd]
    exact ⟨_, rfl⟩
  refine ⟨?_, ?_, ?_⟩
  · rw [create_worktree_target, hP1, hsan]
  · rw [create_worktree_gitignore, hP1]
    dsimp only
    exact hE1
  · rw [create_worktree_trace, hP1]
    dsimp only
    obtain ⟨evs, hevs⟩ := hE2
    refine ⟨(ensure_gitignore (".worktrees".toList) env.gitignore
        c.gitAddOk c.gitCommitOk).2, createTailEvs env m t c, by rw [hsan], ?_⟩
    rw [hevs]
    exact List.mem_cons_self _ _

/-- Witness for C2: the theorem applied to the concrete environment
`envDemo` (root `/home/proj`, branch `demo`, empty existing ignore file). -/
theorem create_worktree_demo_nested_witness :
    (create_worktree envDemo markersNone toolsNone cmdsAllOk).target =
      envDemo.root ++ [".worktrees".toList, "demo".toList] ∧
    (create_worktree envDemo markersNone toolsNone cmdsAllOk).gitignore =
      some (([] : PyStr) ++ "\n# Git worktrees\n".toList ++
        (".worktrees".toList ++ ['/']) ++ ['\n']) ∧
    ∃ l₁ l₂, (create_worktree envDemo markersNone toolsNone cmdsAllOk).trace =
        l₁ ++ Ev.worktreeAddCmd
          (envDemo.root ++ [".worktrees".toList, "demo".toList]) envDemo.branch :: l₂ ∧
      Ev.appendIgnore (".worktrees".toList ++ ['/']) ∈ l₁ :=
  create_worktree_demo_nested envDemo markersNone toolsNone cmdsAllOk []
    rfl rfl rfl (by decide) rfl rfl rfl (by decide)

/-- C3 (corrected): every external command failure is reported on standard
output (`cmdErrorLog`), the primary `git worktree add` failure exits with
status 1, the gitignore-commit failure and a failing baseline verification
only print warnings and leave the outcome unchanged — but a dependency
installation failure inside `setup_project` is not downgraded: it propagates
as an uncaught exception and terminates the process. -/
theorem create_worktree_failure_semantics :
    (∀ env m t c, c.worktreeAddOk = false →
      (create_worktree env m t c).outcome = Outcome.exitCode 1 ∧
      Ev.cmdErrorLog ∈ (create_worktree env m t c).trace ∧
      Ev.hintWorktreeAdd ∈ (create_worktree env m t c).trace) ∧
    (∀ env m t c, c.worktreeAddOk = true →
      (env.skipSetup = true ∨ setup_project m t c = true) →
      (create_worktree env m t c).outcome = Outcome.ok) ∧
    (∀ env m t c, c.worktreeAddOk = true → env.skipSetup = false →
      setup_project m t c = false →
      (create_worktree env m t c).outcome = Outcome.uncaughtError ∧
      Ev.cmdErrorLog ∈ (create_worktree env m t c).trace) ∧
    (∀ directory content gA gC, ¬ ((directory ++ ['/']) <:+: content) →
      (gA && gC) = false →
      Ev.warnCommitFailed ∈ (ensure_gitignore directory (some content) gA gC).2 ∧
      Ev.cmdErrorLog ∈ (ensure_gitignore directory (some content) gA gC).2) ∧
    (∀ env m t c, c.worktreeAddOk = true →
      (env.skipSetup = true ∨ setup_project m t c = true) →
      env.skipVerify = false → verify_baseline m c = some false →
      (create_worktree env m t c).outcome = Outcome.ok ∧
      Ev.verifyFailedMsg ∈ (create_worktree env m t c).trace ∧
      Ev.cmdErrorLog ∈ (create_worktree env m t c).trace) := by
  refine ⟨?_, ?_, ?_, ?_, ?_⟩
  · intro env m t c hw
    refine ⟨by rw [create_worktree_outcome]; simp [hw], ?_, ?_⟩ <;>
      rw [create_worktree_trace] <;> simp [createTailEvs, hw]
  · intro env m t c hw hs
    rw [create_worktree_outcome]
    rcases hs with hs | hs <;> simp [hw, hs]
  · intro env m t c hw hsk hs
    refine ⟨by rw [create_worktree_outcome]; simp [hw, hsk, hs], ?_⟩
    rw [create_worktree_trace]
    simp [createTailEvs, hw, hsk, hs]
  · intro directory content gA gC hpat hgc
    have hnd : ¬ (((directory ++ ['/']) <:+: content) ∨
        (('\n' :: (directory ++ ['/'])) <:+: content)) := by
      rintro (h | h)
      · exact hpat h
      · exact hpat ((List.suffix_cons '\n' (directory ++ ['/'])).isInfix.trans h)
    unfold ensure_gitignore
    dsimp only
    rw [if_neg hnd]
    cases gA <;> cases gC <;> simp_all
  · intro env m t c hw hs hv hb
    refine ⟨?_, ?_, ?_⟩
    · rw [create_worktree_outcome]
      rcases hs with hs | hs <;> simp [hw, hs]
    · rw [create_worktree_trace]
      rcases hs with hs | hs <;> simp [createTailEvs, hw, hs, hv, hb]
    · rw [create_worktree_trace]
      rcases hs with hs | hs <;> simp [createTailEvs, hw, hs, hv, hb]

/-- Witness for C3: the corrected failure semantics applied to the concrete
environment `envDemoFull` with a worktree containing only `package.json` and
an `npm install` failure, and with the gitignore-commit conjunct applied to
an empty ignore file and a failing `git commit`. -/
theorem create_worktree_failure_semantics_witness :
    (create_worktree envDemoFull markersNode toolsNone cmdsNpmFails).outcome =
      Outcome.uncaughtError ∧
    Ev.cmdErrorLog ∈
      (create_worktree envDemoFull markersNode toolsNone cmdsNpmFails).trace ∧
    Ev.warnCommitFailed ∈
      (ensure_gitignore (".worktrees".toList) (some []) true false).2 :=
  ⟨(create_worktree_failure_semantics.2.2.1 envDemoFull markersNode toolsNone
      cmdsNpmFails rfl rfl (by decide)).1,
    (create_worktree_failure_semantics.2.2.1 envDemoFull markersNode toolsNone
      cmdsNpmFails rfl rfl (by decide)).2,
    (create_worktree_failure_semantics.2.2.2.1 (".worktrees".toList) [] true false
      (by decide) rfl).1⟩

/-- Counterexample for C3 as stated: with every command succeeding except
`npm install`, `create_worktree` does not degrade the dependency-installation
failure to a warning — the `CalledProcessError` re-raised by `run_command`
propagates uncaught and the process terminates — contradicting the claim
that setup failures do not terminate the process. -/
theorem create_worktree_setup_failure_terminates :
    (create_worktree envDemoFull markersNode toolsNone cmdsNpmFails).outcome =
      Outcome.uncaughtError ∧
    (create_worktree envDemoFull markersNode toolsNone cmdsNpmFails).outcome ≠
      Outcome.ok ∧
    cmdsNpmFails.worktreeAddOk = true := by
  decide

/-- C4 (corrected): invoking the CLI with no arguments prints the help text
and exits with status 1; an unrecognized subcommand instead makes argparse
abort with a usage error and exit status 2. -/
theorem main_dispatch_spec :
    main_dispatch [] = CliOutcome.helpExit1 ∧
    CliOutcome.exitStatus (main_dispatch []) = some 1 ∧
    CliOutcome.printsHelp (main_dispatch []) = true ∧
    ∀ cmd rest, cmd ∉ knownCommands →
      main_dispatch (cmd :: rest) = CliOutcome.usageError2 ∧
      CliOutcome.exitStatus (main_dispatch (cmd :: rest)) = some 2 := by
  refine ⟨rfl, rfl, rfl, fun cmd rest h => ?_⟩
  have hm : main_dispatch (cmd :: rest) = CliOutcome.usageError2 := by
    unfold main_dispatch
    simp [h]
  exact ⟨hm, by rw [hm]; rfl⟩

/-- Witness for C4: the unrecognized-subcommand part applied to the concrete
token `frobnicate`. -/
theorem main_dispatch_spec_witness :
    main_dispatch ["frobnicate".toList] = CliOutcome.usageError2 ∧
    CliOutcome.exitStatus (main_dispatch ["frobnicate".toList]) = some 2 :=
  main_dispatch_spec.2.2.2 ("frobnicate".toList) [] (by decide)

/-- Counterexample for C4 as stated: on the unrecognized subcommand
`frobnicate` the exit status is 2, not 1, and the full help text is not
printed. -/
theorem main_dispatch_unknown_not_help1 :
    CliOutcome.exitStatus (main_dispatch ["frobnicate".toList]) ≠ some 1 ∧
    CliOutcome.printsHelp (main_dispatch ["frobnicate".toList]) = false := by
  decide

end ManageWorktree

namespace SpawnSubagent

theorem infix_append_mid {l m : PyStr} (h : l <:+: m) (a b : PyStr) :
    l <:+: a ++ (m ++ b) :=
  h.trans ((List.prefix_append m b).isInfix.trans
    (List.suffix_append a (m ++ b)).isInfix)

theorem append_ne_append (i : ℕ) (a b x y : PyStr) (ha : i < a.length)
    (hb : i < b.length) (hab : a[i]? ≠ b[i]?) : a ++ x ≠ b ++ y := by
  intro h
  apply hab
  calc a[i]? = (a ++ x)[i]? := (List.getElem?_append_left ha).symm
    _ = (b ++ y)[i]? := by rw [h]
    _ = b[i]? := List.getElem?_append_left hb

/-- C5: for every skill name for which no skill-instruction file exists at
any of the three candidate locations, `spawn_subagent` returns a failure
result (`success` is `False`) whose error text contains the substring
"not found", and the external subagent binary is never invoked. -/
theorem spawn_subagent_unknown_skill (skill task : PyStr) (w : SpawnWorld)
    (h0 : w.cand0Exists = false) (h1 : w.cand1Exists = false)
    (h2 : w.cand2Exists = false) :
    (spawn_subagent skill task w).result.lookup "success" = some (.b false) ∧
    (∃ e, (spawn_subagent skill task w).result.lookup "error" = some (.s e) ∧
      "not found".toList <:+: e) ∧
    (spawn_subagent skill task w).runCall = none := by
  have hred : spawn_subagent skill task w =
      { result := [("success", .b false), ("output", .s []),
          ("error", .s (notFoundMsg skill w.repoRoot)),
          ("log_file", .s (logFilePath w.repoRoot skill w.timestamp w.subagentId)),
          ("duration_s", .n 0), ("subagent_id", .s w.subagentId)],
        runCall := none } := by
    unfold spawn_subagent
    rw [h0, h1, h2]
    simp
  have hnf : "not found".toList <:+: notFoundMsg skill w.repoRoot := by
    unfold notFoundMsg
    exact (infix_append_mid (l := "not found".toList)
        (m := "' not found. Checked: ".toList) (by decide) skill
        (candidatesRepr w.repoRoot skill)).trans
      (List.suffix_append "Skill '".toList _).isInfix
  rw [hred]
  exact ⟨rfl, ⟨notFoundMsg skill w.repoRoot, rfl, hnf⟩, rfl⟩

/-- Witness for C5: the theorem applied to the concrete skill name `tdd` in
a world with no candidate files. -/
theorem spawn_subagent_unknown_skill_witness :
    (spawn_subagent ("tdd".toList) ("do it".toList) worldNoSkill).result.lookup
      "success" = some (.b false) ∧
    (∃ e, (spawn_subagent ("tdd".toList) ("do it".toList) worldNoSkill).result.lookup
        "error" = some (.s e) ∧ "not found".toList <:+: e) ∧
    (spawn_subagent ("tdd".toList) ("do it".toList) worldNoSkill).runCall = none :=
  spawn_subagent_unknown_skill ("tdd".toList) ("do it".toList) worldNoSkill
    rfl rfl rfl

end SpawnSubagent

namespace SpawnSubagent

/-- C8: the spawner passes the fixed 600-second bound to every external
invocation it makes; when that bound is exceeded the result has `success`
`False` and the dedicated timeout error text, which differs from every error
message the script itself constructs on its other failure paths (unknown
skill, missing binary, generic exception); on the non-zero-exit path the
reported error is the process's own stderr. -/
theorem spawn_subagent_timeout (skill task : PyStr) (w : SpawnWorld)
    (exe : PyStr) (d : ℚ)
    (hc : w.cand0Exists = true)
    (hr : w.readResult ≠ [])
    (hg : w.geminiExe = some exe)
    (hp : w.proc = .timedOut d) :
    (spawn_subagent skill task w).runCall =
      some { cmd := (exe :: (if w.yolo then ["--yolo".toList] else [])),
             timeoutS := 600 } ∧
    (spawn_subagent skill task w).result.lookup "success" = some (.b false) ∧
    (spawn_subagent skill task w).result.lookup "error" =
      some (.s (timeoutMsg d)) ∧
    (∀ s r, timeoutMsg d ≠ notFoundMsg s r) ∧
    timeoutMsg d ≠ geminiMissingMsg ∧
    (∀ e, timeoutMsg d ≠ exceptionMsg e) ∧
    (∀ s' t' w' call, (spawn_subagent s' t' w').runCall = some call →
      call.timeoutS = 600) := by
  have hred : spawn_subagent skill task w =
      { result := [("success", .b false), ("output", .s []),
          ("error", .s (timeoutMsg d)),
          ("log_file", .s (logFilePath w.repoRoot skill w.timestamp w.subagentId)),
          ("duration_s", .n d), ("subagent_id", .s w.subagentId)],
        runCall := some { cmd := (exe :: (if w.yolo then ["--yolo".toList] else [])),
                          timeoutS := 600 } } := by
    unfold spawn_subagent
    rw [hc, hg, hp]
    simp [hr]
  refine ⟨by rw [hred], by rw [hred]; rfl, by rw [hred]; rfl, ?_, ?_, ?_, ?_⟩
  · intro s r
    unfold timeoutMsg notFoundMsg
    exact append_ne_append 1 _ _ _ _ (by decide) (by decide) (by decide)
  · intro heq
    apply append_ne_append 0 "Subagent timed out after ".toList geminiMissingMsg
      (fmtSeconds d ++ ['s']) [] (by decide) (by decide) (by decide)
    rw [List.append_nil]
    exact heq
  · intro e
    unfold timeoutMsg exceptionMsg
    exact append_ne_append 9 _ _ _ _ (by decide) (by decide) (by decide)
  · intro s' t' w' call h
    unfold spawn_subagent at h
    by_cases hi : (if w'.cand0Exists || w'.cand1Exists || w'.cand2Exists
        then w'.readResult else []) = []
    · rw [if_pos hi] at h
      simp at h
    · rw [if_neg hi] at h
      rcases hge : w'.geminiExe with _ | exe'
      · rw [hge] at h
        simp at h
      · rw [hge] at h
        rcases hpr : w'.proc with ⟨rc, so, se, dd⟩ | dd | ⟨ms, dd, st⟩ <;>
          rw [hpr] at h <;> dsimp only at h
        · rw [Option.some_inj] at h
          rw [← h]
        · rw [Option.some_inj] at h
          rw [← h]
        · cases st
          · simp at h
          · rw [if_pos rfl, Option.some_inj] at h
            rw [← h]

/-- Witness for C8: the theorem applied to the concrete world `worldTimeout`
whose process times out after five seconds. -/
theorem spawn_subagent_timeout_witness :
    (spawn_subagent ("tdd".toList) ("do it".toList) worldTimeout).result.lookup
      "success" = some (.b false) ∧
    (spawn_subagent ("tdd".toList) ("do it".toList) worldTimeout).result.lookup
      "error" = some (.s (timeoutMsg 5)) ∧
    timeoutMsg 5 ≠ geminiMissingMsg :=
  ⟨(spawn_subagent_timeout ("tdd".toList) ("do it".toList) worldTimeout
      ("/usr/bin/gemini".toList) 5 rfl (by decide) rfl rfl).2.1,
    (spawn_subagent_timeout ("tdd".toList) ("do it".toList) worldTimeout
      ("/usr/bin/gemini".toList) 5 rfl (by decide) rfl rfl).2.2.1,
    (spawn_subagent_timeout ("tdd".toList) ("do it".toList) worldTimeout
      ("/usr/bin/gemini".toList) 5 rfl (by decide) rfl rfl).2.2.2.2.1⟩

/-- C9: on every path, `spawn_subagent` returns a dictionary with exactly
the keys `success`, `output`, `error`, `log_file`, `duration_s` and
`subagent_id`, in that order, and `success` is `True` only when the external
process was actually run and exited with return code 0. -/
theorem spawn_subagent_result_shape (skill task : PyStr) (w : SpawnWorld) :
    dictKeys (spawn_subagent skill task w).result = spawnKeys ∧
    ((spawn_subagent skill task w).result.lookup "success" = some (.b true) →
      (∃ call, (spawn_subagent skill task w).runCall = some call) ∧
      ∃ stdout stderr d, w.proc = .completed 0 stdout stderr d) := by
  unfold spawn_subagent
  by_cases hi : (if w.cand0Exists || w.cand1Exists || w.cand2Exists
      then w.readResult else []) = []
  · rw [if_pos hi]
    exact ⟨rfl, fun h => absurd h (by simp [List.lookup])⟩
  · rw [if_neg hi]
    rcases hge : w.geminiExe with _ | exe
    · exact ⟨rfl, fun h => absurd h (by simp [List.lookup])⟩
    · rcases hpr : w.proc with ⟨rc, so, se, dd⟩ | dd | ⟨ms, dd, st⟩ <;> dsimp only
      · refine ⟨rfl, fun h => ?_⟩
        have hrc : rc = 0 := by
          simp [List.lookup] at h
          exact h
        exact ⟨⟨_, rfl⟩, so, se, dd, by rw [hrc]⟩
      · exact ⟨rfl, fun h => absurd h (by simp [List.lookup])⟩
      · exact ⟨rfl, fun h => absurd h (by simp [List.lookup])⟩

/-- Witness for C9: the success-only-on-exit-0 part applied to the concrete
world `worldSuccess`, whose process ran and exited 0. -/
theorem spawn_subagent_result_shape_witness :
    (∃ call, (spawn_subagent ("tdd".toList) ("do it".toList)
        worldSuccess).runCall = some call) ∧
    ∃ stdout stderr d,
      worldSuccess.proc = ProcResult.completed 0 stdout stderr d :=
  (spawn_subagent_result_shape ("tdd".toList) ("do it".toList) worldSuccess).2
    (by decide)

end SpawnSubagent

namespace WriteArtifact

/-- C10: the artifact writer computes its output file as the resolution of
the repository root joined with the given path, where the root is the
nearest ancestor carrying a `.agent` or `.git` marker (the start itself
when it carries one, the start again as fallback when no ancestor does);
since the path is joined without validation, an absolute `--path` discards
the root entirely, and a `..`-bearing path such as `../evil` under root
`/home/user/repo` lands the output at `/home/user/evil`, outside the
repository root. -/
theorem write_artifact_path_traversal :
    (∀ start hasMarker arg, arg.absolute = true →
      write_artifact_out start hasMarker arg = resolveComps [] arg.parts) ∧
    (∀ start hasMarker, (∀ p ∈ ancestorChain start, hasMarker p = false) →
      find_repo_root start hasMarker = start) ∧
    (∀ (start : FsPath) (hasMarker : FsPath → Bool), hasMarker start = true →
      find_repo_root start hasMarker = start) ∧
    (write_artifact_out sampleRoot sampleMarker dotdotArg =
        ["home".toList, "user".toList, "evil".toList] ∧
      ¬ (sampleRoot <+: write_artifact_out sampleRoot sampleMarker dotdotArg)) := by
  refine ⟨?_, ?_, ?_, by decide⟩
  · intro start hasMarker arg h
    unfold write_artifact_out
    rw [h]
    simp
  · intro start hasMarker h
    unfold find_repo_root
    have hn : (ancestorChain start).find? hasMarker = none :=
      List.find?_eq_none.mpr (fun p hp => by rw [h p hp]; simp)
    rw [hn]
  · intro start hasMarker h
    have hchain : ∃ rest, ancestorChain start = start :: rest := by
      unfold ancestorChain
      rw [List.range_succ_eq_map, List.map_cons]
      refine ⟨(List.map Nat.succ (List.range start.length)).map
        (fun k => start.take (start.length - k)), ?_⟩
      congr 1
      show start.take (start.length - 0) = start
      simp [List.take_length]
    obtain ⟨rest, hr⟩ := hchain
    unfold find_repo_root
    rw [hr, List.find?_cons_of_pos _ h]

/-- Witness for C10: the nearest-ancestor part applied to the concrete root
`/home/user/repo`, which itself carries the marker. -/
theorem write_artifact_path_traversal_witness :
    find_repo_root sampleRoot sampleMarker = sampleRoot :=
  write_artifact_path_traversal.2.2.1 sampleRoot sampleMarker (by decide)

end WriteArtifact
